import Mathlib

/-!
Verification development for the UIT Alwar auction monitor
(src/lambda_function.py).  The Python module is shallowly embedded:
pure parsing functions become Lean functions over a small model of the
fetched HTML (element texts and link targets are taken as input data;
the URL resolution helper of the HTTP layer is kept abstract by carrying
already resolved link targets), fallible code returns Except, and the
run orchestrator lambda_handler becomes a function from the outcome of
each network interaction plus the current store contents to the
structured result, the final store contents and the trace of
notification events.  Python strings are modelled as lists of
characters so that every definition evaluates by kernel reduction.
-/

set_option autoImplicit false
set_option maxHeartbeats 1000000

deriving instance DecidableEq for Except

/-! ### String helpers mirroring the Python string operations used -/

/-- Str models a Python string as its list of characters. -/
abbrev Str : Type := List Char

/-- str converts a Lean string literal into the Str model. -/
def str (s : String) : Str := s.data

/-- trimL models Python `s.strip()` restricted to ASCII whitespace,
which is the only whitespace the scraped labels contain. -/
def trimL (s : Str) : Str :=
  ((s.dropWhile Char.isWhitespace).reverse.dropWhile Char.isWhitespace).reverse

/-- breakColon splits a string at its first colon, returning the parts
before and after it, or `none` when it contains no colon. -/
def breakColon : Str → Option (Str × Str)
  | [] => none
  | c :: cs =>
    if c = ':' then some ([], cs)
    else
      match breakColon cs with
      | some (a, b) => some (c :: a, b)
      | none => none

/-- colonTail models Python `text.split(":", 1)[1].strip()` as an
Option: `none` corresponds to the IndexError case in which the text
contains no colon, `some v` to the stripped part after the first
colon. -/
def colonTail (s : Str) : Option Str :=
  match breakColon s with
  | some (_, t) => some (trimL t)
  | none => none

/-- containsSubL models the Python substring test `pat in s`. -/
def containsSubL : Str → Str → Bool
  | [], pat => pat.isEmpty
  | c :: rest, pat => List.isPrefixOf pat (c :: rest) || containsSubL rest pat

/-- lowChar models Python `str.lower` on one ASCII character; the unit
names matched by the code are ASCII. -/
def lowChar (c : Char) : Char :=
  if 65 ≤ c.toNat ∧ c.toNat ≤ 90 then Char.ofNat (c.toNat + 32) else c

/-- lowerL models Python `s.lower()` for ASCII strings. -/
def lowerL (s : Str) : Str := s.map lowChar

/-- wordsAux accumulates the current word (reversed) while splitting a
string on whitespace runs, as Python `s.split()` does. -/
def wordsAux : Str → Str → List Str
  | [], cur => if cur.isEmpty then [] else [cur.reverse]
  | c :: cs, cur =>
    if c.isWhitespace then
      if cur.isEmpty then wordsAux cs [] else cur.reverse :: wordsAux cs []
    else wordsAux cs (c :: cur)

/-- normSpaceL models Python `" ".join(s.split())`: collapse whitespace
runs and strip the ends. -/
def normSpaceL (s : Str) : Str := List.intercalate (str " ") (wordsAux s [])

/-! ### Plot records (Python dicts with the fixed key set used there) -/

/-- Plot models the Python plot dict built by fetch_plot_details; each
field is `none` when the corresponding key is absent from the dict. -/
structure Plot where
  id : Option Str := none
  title : Option Str := none
  scheme_name : Option Str := none
  property_number : Option Str := none
  area : Option Str := none
  usage_type : Option Str := none
  emd_start : Option Str := none
  emd_end : Option Str := none
  emd_amount : Option Str := none
  bid_start : Option Str := none
  bid_end : Option Str := none
  assessed_value : Option Str := none
  detail_url : Option Str := none
deriving DecidableEq, Repr, Inhabited

/-- emptyPlot models the empty dict. -/
def emptyPlot : Plot := {}

/-- Plot.nonempty models Python truthiness `if plot:` of the dict, that
is, at least one key is present. -/
def Plot.nonempty (p : Plot) : Bool :=
  p.id.isSome || p.title.isSome || p.scheme_name.isSome || p.property_number.isSome ||
  p.area.isSome || p.usage_type.isSome || p.emd_start.isSome || p.emd_end.isSome ||
  p.emd_amount.isSome || p.bid_start.isSome || p.bid_end.isSome ||
  p.assessed_value.isSome || p.detail_url.isSome

/-- PKey enumerates the dict keys assigned through the `pairs` table of
fetch_plot_details. -/
inductive PKey where
  | title | scheme_name | property_number | area | usage_type
  | emd_start | emd_end | emd_amount | bid_start | bid_end
deriving DecidableEq, Repr

/-- setField models `plot[key] = v` for the keys of the `pairs` table. -/
def setField (p : Plot) : PKey → Str → Plot
  | .title, v => { p with title := some v }
  | .scheme_name, v => { p with scheme_name := some v }
  | .property_number, v => { p with property_number := some v }
  | .area, v => { p with area := some v }
  | .usage_type, v => { p with usage_type := some v }
  | .emd_start, v => { p with emd_start := some v }
  | .emd_end, v => { p with emd_end := some v }
  | .emd_amount, v => { p with emd_amount := some v }
  | .bid_start, v => { p with bid_start := some v }
  | .bid_end, v => { p with bid_end := some v }

/-- fieldPairs is the `pairs` list of fetch_plot_details, in source
order; note that the EMD Amount label carries no trailing colon. -/
def fieldPairs : List (Str × PKey) :=
  [(str "Title :", .title),
   (str "Scheme Name :", .scheme_name),
   (str "Property Number :", .property_number),
   (str "Property Area :", .area),
   (str "Usage Type :", .usage_type),
   (str "EMD Deposit Start Date :", .emd_start),
   (str "EMD Deposit End Date :", .emd_end),
   (str "EMD Amount", .emd_amount),
   (str "Bid Start Date :", .bid_start),
   (str "Bid End Date :", .bid_end)]

/-- Li models one li element of the scheme page: its text content as
produced by `get_text(" ", strip=True)` and the resolved target of its
first contained link, when present. -/
structure Li where
  text : Str
  href : Option Str := none
deriving DecidableEq, Repr

/-- capture_link_from_li of the source: the first link of the element,
dropped when the href is falsy. -/
def capture_link_from_li (li : Li) : Option Str :=
  match li.href with
  | some h => if h.isEmpty then none else some h
  | none => none

/-- linkPlot models the conditional capture at the top of the loop
body: if the element carries a link and the open record has no
detail_url yet, the link is stored; the first link wins. -/
def linkPlot (plot : Plot) (li : Li) : Plot :=
  match capture_link_from_li li with
  | some h => if plot.detail_url.isNone then { plot with detail_url := some h } else plot
  | none => plot

/-- stepLi models one iteration of the `for li in lis` loop of
fetch_plot_details over the state of result list and currently open
plot dict; `Except.error` models the IndexError raised by
`text.split(":", 1)[1]` on a label line with no colon. -/
def stepLi (res : List Plot) (plot : Plot) (li : Li) :
    Except String (List Plot × Plot) :=
  let text := li.text
  if text.isEmpty then .ok (res, plot)
  else
    let plot1 := linkPlot plot li
    if List.isPrefixOf (str "Id :") text then
      let res1 := if plot1.nonempty then res ++ [plot1] else res
      match colonTail text with
      | some v => .ok (res1, { emptyPlot with id := some v })
      | none => .error "list index out of range"
    else
      match fieldPairs.find? (fun pk => List.isPrefixOf pk.1 text) with
      | some (_, k) =>
        match colonTail text with
        | some v => .ok (res, setField plot1 k v)
        | none => .error "list index out of range"
      | none =>
        if containsSubL text (str "Assessed Property Value") then
          match colonTail text with
          | some v => .ok (res, { plot1 with assessed_value := some v })
          | none => .ok (res, plot1)
        else .ok (res, plot1)

/-- goPlots runs the loop of fetch_plot_details from a given state and
performs the final flush at end of input. -/
def goPlots : List Li → List Plot → Plot → Except String (List Plot)
  | [], res, plot => .ok (if plot.nonempty then res ++ [plot] else res)
  | li :: rest, res, plot =>
    match stepLi res plot li with
    | .ok (res1, plot1) => goPlots rest res1 plot1
    | .error e => .error e

/-- fetch_plot_details of the source, over the list of li elements of
the scheme page. -/
def fetch_plot_details (lis : List Li) : Except String (List Plot) :=
  goPlots lis [] emptyPlot

example :
    fetch_plot_details
      [⟨str "Id : 1", none⟩, ⟨str "Title : A", none⟩,
       ⟨str "Id : 2", none⟩, ⟨str "Title : B", none⟩] =
    .ok [{ id := some (str "1"), title := some (str "A") },
         { id := some (str "2"), title := some (str "B") }] := by
  decide

/-! ### Diff engine and state store adapter -/

/-- truthy models Python truthiness of `x.get("id")`: the key is present
and its value is a nonempty string. -/
def truthy : Option Str → Bool
  | some s => !s.isEmpty
  | none => false

/-- prev_ids models the set comprehension over the previous records,
as in `prev_ids = set of x.get("id") for x in prev_plots if x.get("id")`;
the set is modelled as the list of its member strings. -/
def prev_ids {α : Type} (ident : α → Option Str) (prev : List α) : List Str :=
  prev.filterMap fun x =>
    match ident x with
    | some s => if s.isEmpty then none else some s
    | none => none

/-- diffNew models the new-items comprehension of lambda_handler:
every record of `current` with a truthy identity absent from the
identity set of `prev`, in the order of `current`. -/
def diffNew {α : Type} (ident : α → Option Str) (current prev : List α) : List α :=
  current.filter fun p =>
    match ident p with
    | some s => !s.isEmpty && !(prev_ids ident prev).contains s
    | none => false

/-- load_json models the state load: the stored value under the key, or
the empty list when the key is absent, which the source maps from the
NoSuchKey client error. -/
def load_json {α : Type} (stored : Option (List α)) : List α :=
  stored.getD []

/-! ### Notifier: send_telegram_messages -/

/-- sendLoop models the `for it in items` loop of
send_telegram_messages: `cap` is TELEGRAM_MAX_MESSAGES, `ok k` tells
whether the k-th `requests.post` attempt of this run succeeds, `sent`
counts successful sends (it is incremented only after a successful
post) and `att` counts post attempts.  Returns (attempts, sent). -/
def sendLoop {α : Type} (cap : Nat) (ok : Nat → Bool) :
    List α → Nat → Nat → Nat × Nat
  | [], sent, att => (att, sent)
  | _ :: rest, sent, att =>
    if cap ≤ sent then (att, sent)
    else sendLoop cap ok rest (if ok att then sent + 1 else sent) (att + 1)

/-- send_telegram_messages of the source, abstracted over the message
builder (which only formats text) and the transport outcomes; when the
Telegram credentials are not configured the function returns without
any attempt. -/
def send_telegram_messages {α : Type} (configured : Bool) (cap : Nat)
    (items : List α) (ok : Nat → Bool) : Nat × Nat :=
  if configured then sendLoop cap ok items 0 0 else (0, 0)

/-! ### SHA-256 (the hashlib.sha256 call of fetch_newsletters), FIPS 180-4 -/

/-- w32 truncates a natural number to a 32 bit word. -/
def w32 (n : Nat) : Nat := n % 4294967296

/-- rotr is right rotation of a 32 bit word. -/
def rotr (n x : Nat) : Nat := w32 ((x >>> n) ||| (x <<< (32 - n)))

/-- bsig0 is the big sigma-0 function of SHA-256. -/
def bsig0 (x : Nat) : Nat := rotr 2 x ^^^ rotr 13 x ^^^ rotr 22 x

/-- bsig1 is the big sigma-1 function of SHA-256. -/
def bsig1 (x : Nat) : Nat := rotr 6 x ^^^ rotr 11 x ^^^ rotr 25 x

/-- ssig0 is the small sigma-0 function of SHA-256. -/
def ssig0 (x : Nat) : Nat := rotr 7 x ^^^ rotr 18 x ^^^ (x >>> 3)

/-- ssig1 is the small sigma-1 function of SHA-256. -/
def ssig1 (x : Nat) : Nat := rotr 17 x ^^^ rotr 19 x ^^^ (x >>> 10)

/-- kConst is the table of the 64 SHA-256 round constants. -/
def kConst : List Nat :=
  [1116352408, 1899447441, 3049323471, 3921009573, 961987163, 1508970993,
   2453635748, 2870763221, 3624381080, 310598401, 607225278, 1426881987,
   1925078388, 2162078206, 2614888103, 3248222580, 3835390401, 4022224774,
   264347078, 604807628, 770255983, 1249150122, 1555081692, 1996064986,
   2554220882, 2821834349, 2952996808, 3210313671, 3336571891, 3584528711,
   113926993, 338241895, 666307205, 773529912, 1294757372, 1396182291,
   1695183700, 1986661051, 2177026350, 2456956037, 2730485921, 2820302411,
   3259730800, 3345764771, 3516065817, 3600352804, 4094571909, 275423344,
   430227734, 506948616, 659060556, 883997877, 958139571, 1322822218,
   1537002063, 1747873779, 1955562222, 2024104815, 2227730452, 2361852424,
   2428436474, 2756734187, 3204031479, 3329325298]

/-- Hash8 is the eight word working state of SHA-256. -/
structure Hash8 where
  a : Nat
  b : Nat
  c : Nat
  d : Nat
  e : Nat
  f : Nat
  g : Nat
  h : Nat
deriving DecidableEq, Repr

/-- sha256init is the initial hash value of SHA-256. -/
def sha256init : Hash8 :=
  ⟨1779033703, 3144134277, 1013904242, 2773480762, 1359893119, 2600822924, 528734635, 1541459225⟩

/-- toWords packs bytes into 32 bit big endian words. -/
def toWords : List Nat → List Nat
  | b0 :: b1 :: b2 :: b3 :: rest =>
    (b0 * 16777216 + b1 * 65536 + b2 * 256 + b3) :: toWords rest
  | _ => []

/-- extendSteps appends one scheduled word per step to the message
schedule, as the SHA-256 schedule recurrence prescribes. -/
def extendSteps : Nat → List Nat → List Nat
  | 0, ws => ws
  | n + 1, ws =>
    let m := ws.length
    extendSteps n
      (ws ++ [w32 (ssig1 (ws.getD (m - 2) 0) + ws.getD (m - 7) 0 +
                   ssig0 (ws.getD (m - 15) 0) + ws.getD (m - 16) 0)])

/-- sha256round is one round of the SHA-256 compression function, fed
with the pair of round constant and scheduled word. -/
def sha256round (st : Hash8) (kw : Nat × Nat) : Hash8 :=
  let ch := (st.e &&& st.f) ^^^ ((st.e ^^^ 4294967295) &&& st.g)
  let t1 := w32 (st.h + bsig1 st.e + ch + kw.1 + kw.2)
  let maj := (st.a &&& st.b) ^^^ (st.a &&& st.c) ^^^ (st.b &&& st.c)
  let t2 := w32 (bsig0 st.a + maj)
  ⟨w32 (t1 + t2), st.a, st.b, st.c, w32 (st.d + t1), st.e, st.f, st.g⟩

/-- compress runs the 64 rounds on one 64 byte block and adds the
result to the incoming state. -/
def compress (st : Hash8) (block : List Nat) : Hash8 :=
  let ws := extendSteps 48 (toWords block)
  let r := (List.zip kConst ws).foldl sha256round st
  ⟨w32 (st.a + r.a), w32 (st.b + r.b), w32 (st.c + r.c), w32 (st.d + r.d),
   w32 (st.e + r.e), w32 (st.f + r.f), w32 (st.g + r.g), w32 (st.h + r.h)⟩

/-- toBlocksF splits bytes into 64 byte blocks; the fuel argument makes
the recursion structural and is instantiated with the list length,
which bounds the number of blocks. -/
def toBlocksF : Nat → List Nat → List (List Nat)
  | 0, _ => []
  | _, [] => []
  | fuel + 1, b :: bs => ((b :: bs).take 64) :: toBlocksF fuel ((b :: bs).drop 64)

/-- toBlocks splits the padded message into 64 byte blocks. -/
def toBlocks (l : List Nat) : List (List Nat) := toBlocksF l.length l

/-- lenBytes64 is the 64 bit big endian encoding of the bit length. -/
def lenBytes64 (n : Nat) : List Nat :=
  [(n >>> 56) % 256, (n >>> 48) % 256, (n >>> 40) % 256, (n >>> 32) % 256,
   (n >>> 24) % 256, (n >>> 16) % 256, (n >>> 8) % 256, n % 256]

/-- padMsg appends the 0x80 marker, the zero padding up to 56 modulo 64
bytes, and the bit length. -/
def padMsg (msg : List Nat) : List Nat :=
  msg ++ [128] ++ List.replicate ((119 - (msg.length % 64)) % 64) 0 ++
    lenBytes64 (msg.length * 8)

/-- wordBytes is the big endian byte decomposition of a 32 bit word. -/
def wordBytes (w : Nat) : List Nat :=
  [(w >>> 24) % 256, (w >>> 16) % 256, (w >>> 8) % 256, w % 256]

/-- hashBytes flattens the final state into the 32 digest bytes. -/
def hashBytes (st : Hash8) : List Nat :=
  wordBytes st.a ++ wordBytes st.b ++ wordBytes st.c ++ wordBytes st.d ++
  wordBytes st.e ++ wordBytes st.f ++ wordBytes st.g ++ wordBytes st.h

/-- sha256 maps a byte sequence to its 32 digest bytes. -/
def sha256 (msg : List Nat) : List Nat :=
  hashBytes ((toBlocks (padMsg msg)).foldl compress sha256init)

/-- hexAlphabet lists the lowercase hexadecimal digits. -/
def hexAlphabet : List Char := str "0123456789abcdef"

/-- hexDigitChar maps a nibble to its lowercase hexadecimal digit. -/
def hexDigitChar (n : Nat) : Char := hexAlphabet.getD n '0'

/-- byteHexChars writes one byte as two hexadecimal characters, as in
the hexdigest method. -/
def byteHexChars (b : Nat) : List Char := [hexDigitChar (b / 16), hexDigitChar (b % 16)]

/-- sha256hexChars models `hashlib.sha256(bytes).hexdigest()` as a
character list. -/
def sha256hexChars (msg : List Nat) : List Char := (sha256 msg).flatMap byteHexChars

/-- utf8Char is the UTF-8 encoding of one character. -/
def utf8Char (c : Char) : List Nat :=
  let n := c.toNat
  if n < 128 then [n]
  else if n < 2048 then [192 ||| (n >>> 6), 128 ||| (n &&& 63)]
  else if n < 65536 then
    [224 ||| (n >>> 12), 128 ||| ((n >>> 6) &&& 63), 128 ||| (n &&& 63)]
  else
    [240 ||| (n >>> 18), 128 ||| ((n >>> 12) &&& 63),
     128 ||| ((n >>> 6) &&& 63), 128 ||| (n &&& 63)]

/-- utf8 models `s.encode("utf-8")`. -/
def utf8 (s : Str) : List Nat := s.flatMap utf8Char

example :
    sha256hexChars (utf8 (str "abc")) =
    str "ba7816bf8f01cfea414140de5dae2223b00361a396177a9cb410ff61f20015ad" := by
  decide

/-! ### Newsletter extraction (fetch_newsletters) -/

/-- newsId models the stable identity computation of fetch_newsletters:
`key_src = url or date|detail|venue`, then the sha256 hexdigest
truncated to 16 characters. -/
def newsId (url date detail venue : Str) : Str :=
  let key_src :=
    if url.isEmpty then date ++ str "|" ++ detail ++ str "|" ++ venue else url
  (sha256hexChars (utf8 key_src)).take 16

/-- NewsItem models one Python newsletter dict. -/
structure NewsItem where
  id : Str
  date : Str
  detail : Str
  venue_time : Str
  url : Str
  title : Str
deriving DecidableEq, Repr

/-- NLink models an anchor of a newsletter cell: its resolved href
target and its visible text. -/
structure NLink where
  href : Str
  text : Str
deriving DecidableEq, Repr

/-- NCell models one td cell of the newsletter table: its text content
and its first anchor, when present. -/
structure NCell where
  text : Str := []
  link : Option NLink := none
deriving DecidableEq, Repr

/-- NRow models one tr row: whether it contains th cells (a header row)
and its td cells. -/
structure NRow where
  hasTh : Bool := false
  tds : List NCell := []
deriving DecidableEq, Repr

/-- NTable models one table element of the newsletter page, carrying
its id attribute when present. -/
structure NTable where
  tid : Option Str := none
  rows : List NRow := []
deriving DecidableEq, Repr

/-- emptyCell is the default cell used for out of range indexing; it is
never reached because the row length is checked first. -/
def emptyCell : NCell := {}

/-- newsRow models the per row body of the fetch_newsletters loop:
header rows and rows of fewer than five cells are skipped, otherwise
the fields are read from the fixed columns and the identity is
computed. -/
def newsRow (tr : NRow) : Option NewsItem :=
  if tr.hasTh then none
  else if tr.tds.length < 5 then none
  else
    let date_txt := (tr.tds.getD 1 emptyCell).text
    let detail_txt := (tr.tds.getD 2 emptyCell).text
    let venue_txt := (tr.tds.getD 3 emptyCell).text
    let a := (tr.tds.getD 4 emptyCell).link
    let url := match a with | some l => l.href | none => []
    let title := match a with | some l => l.text | none => str "View Document"
    some { id := newsId url date_txt detail_txt venue_txt,
           date := date_txt, detail := detail_txt, venue_time := venue_txt,
           url := url, title := title }

/-- fetch_newsletters of the source, over the list of tables of the
newsletter page: the table is located by its exact id attribute, and
when it is absent the function logs a warning and returns the empty
list. -/
def fetch_newsletters (tables : List NTable) : List NewsItem :=
  match tables.find? (fun tb => tb.tid = some (str "ContentPlaceHolder1_gridview1")) with
  | none => []
  | some tb => tb.rows.filterMap newsRow

/-! ### Summary page and extract_uit_alwar_link -/

/-- SRow models one tr row of the unit summary table: the texts of its
td cells, the resolved href of its first anchor when present, and the
full row text produced by `get_text(" ", strip=True)`. -/
structure SRow where
  tds : List Str := []
  link : Option Str := none
  rowText : Str := []
deriving DecidableEq, Repr

/-- STable models one table of the summary page. -/
structure STable where
  rows : List SRow := []
deriving DecidableEq, Repr

/-- SummaryPage models the summary document as the code traverses it:
`hdrNext` is `some t` when a Unit Wise Summary header exists, with `t`
the first table after it when any; `allTables` lists every table of the
document in order, so that `soup.find("table")` is its head. -/
structure SummaryPage where
  hdrNext : Option (Option STable) := none
  allTables : List STable := []
deriving DecidableEq, Repr

/-- unitNameMatches models the primary rule: the row has at least two
cells and the normalised second cell starts with "uit, alwar" after
lowering. -/
def unitNameMatches (r : SRow) : Bool :=
  2 ≤ r.tds.length &&
    List.isPrefixOf (str "uit, alwar") (lowerL (normSpaceL (r.tds.getD 1 [])))

/-- rowTextMatches models the fallback rule: the normalised lowered row
text contains both "uit" and "alwar". -/
def rowTextMatches (r : SRow) : Bool :=
  containsSubL (lowerL (normSpaceL r.rowText)) (str "uit") &&
  containsSubL (lowerL (normSpaceL r.rowText)) (str "alwar")

/-- extract_uit_alwar_link of the source: choose the table after the
header, else the first table of the document, else raise ValueError;
then return the link of the first row matched by the primary rule, else
by the fallback rule, else raise ValueError.  Both failure modes are
the same Python exception type (ValueError), modelled as Except.error;
the dynamic listing of available units inside the second message is
omitted from the model. -/
def extract_uit_alwar_link (page : SummaryPage) : Except String Str :=
  let viaHdr : Option STable :=
    match page.hdrNext with
    | some t? => t?
    | none => page.allTables.head?
  let t? : Option STable :=
    match viaHdr with
    | some t => some t
    | none => page.allTables.head?
  match t? with
  | none => .error "Could not find unit summary table"
  | some t =>
    match t.rows.find? (fun r => unitNameMatches r && r.link.isSome) with
    | some r =>
      match r.link with
      | some href => .ok href
      | none => .error "unreachable"
    | none =>
      match t.rows.find? (fun r => rowTextMatches r && r.link.isSome) with
      | some r =>
        match r.link with
        | some href => .ok href
        | none => .error "unreachable"
      | none => .error "UIT, Alwar row not found in summary table"

/-! ### Run orchestrator (lambda_handler)

The handler is modelled as a function of the outcome of each network
interaction.  `summaryFetch` is the result of fetch_unit_wise_summary;
`plotsAgg` abstracts the fetch_scheme_list plus fetch_plot_details fan
out that follows a successful link extraction, yielding the aggregated
all_plots list (after the setdefault calls) or the exception it raised;
`newsFetch` is the result of the page request inside fetch_newsletters.
The store is a pure pair of optional lists; absent keys model NoSuchKey.
The batch sender send_telegram_messages catches every per item failure,
so it never raises; the single send_telegram_message used for the soft
notice, the heartbeats and the failure notices is unguarded in the
source, so the model carries one flag per call site telling whether that
post raises, and a raise inside an except block escapes the handler. -/

/-- FetchResult is the outcome of one network interaction: a value or a
raised transport exception. -/
inductive FetchResult (α : Type) where
  | ok (a : α)
  | netErr (msg : String)
deriving DecidableEq, Repr

/-- S3State is the store contents under the two keys, absent or
present. -/
structure S3State where
  plots : Option (List Plot) := none
  news : Option (List NewsItem) := none
deriving DecidableEq, Repr

/-- RunResult models the structured return value of lambda_handler,
with the body counts inlined. -/
structure RunResult where
  statusCode : Nat
  total_plots : Nat := 0
  new_plots : Nat := 0
  total_news : Nat := 0
  new_news : Nat := 0
deriving DecidableEq, Repr

/-- Event records one notification call site reached during the run. -/
inductive Event where
  | plotBatch (items : List Plot)
  | noNewPlots
  | softUnit (msg : String)
  | plotFail (msg : String)
  | newsBatch (items : List NewsItem)
  | noNewNews
  | newsFail (msg : String)
deriving DecidableEq, Repr

/-- HandlerEnv packs the interaction outcomes consumed by one run. -/
structure HandlerEnv where
  bucketSet : Bool := true
  summaryFetch : FetchResult SummaryPage
  plotsAgg : FetchResult (List Plot)
  newsFetch : FetchResult (List NTable)
  raiseNoNewPlots : Bool := false
  raiseSoftNotice : Bool := false
  raisePlotFail : Bool := false
  raiseNoNewNews : Bool := false
  raiseNewsFail : Bool := false
deriving DecidableEq, Repr

/-- PhaseOut is the outcome of one source section of the handler:
`escape` carries the exception leaving the handler when a notice send
inside an except block raises, `total` and `newCount` are the counts
the final body reports for this source. -/
structure PhaseOut where
  escape : Option String := none
  total : Nat := 0
  newCount : Nat := 0
  s3 : S3State
  events : List Event := []
deriving DecidableEq, Repr

/-- plotFailPath models reaching the outer `except Exception` of the
plots section: the failure notice goes through the unguarded single
sender, whose own failure escapes lambda_handler. -/
def plotFailPath (env : HandlerEnv) (s3 : S3State) (evs : List Event)
    (total newCount : Nat) (e : String) : PhaseOut :=
  if env.raisePlotFail then
    ⟨some "telegram send failed", total, newCount, s3, evs ++ [.plotFail e]⟩
  else ⟨none, total, newCount, s3, evs ++ [.plotFail e]⟩

/-- plots_phase models the plots section of lambda_handler. -/
def plots_phase (env : HandlerEnv) (s3 : S3State) : PhaseOut :=
  match env.summaryFetch with
  | .netErr e => plotFailPath env s3 [] 0 0 e
  | .ok page =>
    match extract_uit_alwar_link page with
    | .error e =>
      if env.raiseSoftNotice then
        plotFailPath env s3 [.softUnit e] 0 0 "telegram send failed"
      else ⟨none, 0, 0, s3, [.softUnit e]⟩
    | .ok _link =>
      match env.plotsAgg with
      | .netErr e => plotFailPath env s3 [] 0 0 e
      | .ok all_plots =>
        let prev_plots := load_json s3.plots
        let new_plots := diffNew Plot.id all_plots prev_plots
        let s3a : S3State := { s3 with plots := some all_plots }
        if new_plots.isEmpty then
          if env.raiseNoNewPlots then
            plotFailPath env s3a [.noNewPlots] all_plots.length 0 "telegram send failed"
          else ⟨none, all_plots.length, 0, s3a, [.noNewPlots]⟩
        else ⟨none, all_plots.length, new_plots.length, s3a, [.plotBatch new_plots]⟩

/-- newsFailPath models reaching the `except Exception` of the news
section. -/
def newsFailPath (env : HandlerEnv) (s3 : S3State) (evs : List Event)
    (total newCount : Nat) (e : String) : PhaseOut :=
  if env.raiseNewsFail then
    ⟨some "telegram send failed", total, newCount, s3, evs ++ [.newsFail e]⟩
  else ⟨none, total, newCount, s3, evs ++ [.newsFail e]⟩

/-- news_phase models the newsletters section of lambda_handler. -/
def news_phase (env : HandlerEnv) (s3 : S3State) : PhaseOut :=
  match env.newsFetch with
  | .netErr e => newsFailPath env s3 [] 0 0 e
  | .ok tables =>
    let news_now := fetch_newsletters tables
    let prev_news := load_json s3.news
    let new_news := diffNew (fun n => some n.id) news_now prev_news
    let s3a : S3State := { s3 with news := some news_now }
    if new_news.isEmpty then
      if env.raiseNoNewNews then
        newsFailPath env s3a [.noNewNews] news_now.length 0 "telegram send failed"
      else ⟨none, news_now.length, 0, s3a, [.noNewNews]⟩
    else ⟨none, news_now.length, new_news.length, s3a, [.newsBatch new_news]⟩

/-- HandlerOut is the observable outcome of one invocation: the
structured result or the escaped exception, the final store contents,
and the notification call sites reached. -/
structure HandlerOut where
  result : Except String RunResult
  s3 : S3State
  events : List Event
deriving DecidableEq, Repr

/-- lambda_handler of the source: the missing bucket guard, the two
independent per source sections, and the structured 200 body carrying
the four counts. -/
def lambda_handler (env : HandlerEnv) (s3 : S3State) : HandlerOut :=
  if !env.bucketSet then
    ⟨.ok { statusCode := 500 }, s3, []⟩
  else
    let p := plots_phase env s3
    match p.escape with
    | some e => ⟨.error e, p.s3, p.events⟩
    | none =>
      let n := news_phase env p.s3
      match n.escape with
      | some e => ⟨.error e, n.s3, p.events ++ n.events⟩
      | none =>
        ⟨.ok { statusCode := 200, total_plots := p.total, new_plots := p.newCount,
               total_news := n.total, new_news := n.newCount },
         n.s3, p.events ++ n.events⟩

/-! ### Helper lemmas -/

theorem prevIdsFun_eq_some {α : Type} (ident : α → Option Str) (q : α) (s : Str) :
    (match ident q with
     | some t => if t.isEmpty then none else some t
     | none => none) = some s ↔ ident q = some s ∧ s ≠ [] := by
  cases h : ident q with
  | none => simp
  | some t =>
    by_cases ht : t = []
    · subst ht; simp
    · have hb : t.isEmpty = false := by
        cases hie : t.isEmpty
        · rfl
        · exact absurd (List.isEmpty_iff.mp hie) ht
      simp only [hb, Bool.false_eq_true, if_false, Option.some.injEq]
      constructor
      · rintro rfl
        exact ⟨rfl, ht⟩
      · rintro ⟨h2, _⟩
        exact h2

theorem mem_prev_ids {α : Type} (ident : α → Option Str) (prev : List α) (s : Str) :
    s ∈ prev_ids ident prev ↔ ∃ q ∈ prev, ident q = some s ∧ s ≠ [] := by
  unfold prev_ids
  rw [List.mem_filterMap]
  constructor
  · rintro ⟨q, hq, hf⟩
    exact ⟨q, hq, (prevIdsFun_eq_some ident q s).mp hf⟩
  · rintro ⟨q, hq, hf⟩
    exact ⟨q, hq, (prevIdsFun_eq_some ident q s).mpr hf⟩

theorem filterMap_of_filter {α β : Type} (f : α → Option β) (g : α → Bool)
    (hfg : ∀ x, g x = false → f x = none) (l : List α) :
    (l.filter g).filterMap f = l.filterMap f := by
  induction l with
  | nil => rfl
  | cons q rest ih =>
    cases hg : g q
    · simp [List.filter_cons, hg, List.filterMap_cons, hfg q hg, ih]
    · simp [List.filter_cons, hg, List.filterMap_cons, ih]

theorem prev_ids_filter_truthy {α : Type} (ident : α → Option Str) (prev : List α) :
    prev_ids ident (prev.filter fun x => truthy (ident x)) = prev_ids ident prev := by
  unfold prev_ids
  refine filterMap_of_filter _ _ (fun x hx => ?_) prev
  cases hi : ident x with
  | none => rfl
  | some t =>
    simp only [truthy, hi, Bool.not_eq_false'] at hx
    simp [hx]

/-- Claim C1: for every pair of sequences, the diff returns exactly the
records of current whose identity is absent from the set of identities
of previous, preserving the iteration order of current (a sublist),
keeping duplicate identities within current as duplicates (counts
preserved), and excluding records lacking a truthy identity from both
the previous identity set and the diff output. -/
theorem c1_diff_exact {α : Type} [DecidableEq α] (ident : α → Option Str)
    (current previous : List α) :
    List.Sublist (diffNew ident current previous) current ∧
    (∀ p : α, p ∈ diffNew ident current previous ↔
      (p ∈ current ∧ ∃ s, ident p = some s ∧ s ≠ [] ∧ ∀ q ∈ previous, ident q ≠ some s)) ∧
    (∀ p : α, (diffNew ident current previous).count p =
      if p ∈ diffNew ident current previous then current.count p else 0) ∧
    diffNew ident current (previous.filter fun x => truthy (ident x)) =
      diffNew ident current previous := by
  refine ⟨List.filter_sublist _, fun p => ?_, fun p => ?_, ?_⟩
  · unfold diffNew
    rw [List.mem_filter]
    constructor
    · rintro ⟨hc, hf⟩
      refine ⟨hc, ?_⟩
      cases hi : ident p with
      | none => simp [hi] at hf
      | some s =>
        simp only [hi, Bool.and_eq_true, Bool.not_eq_true'] at hf
        refine ⟨s, rfl, ?_, ?_⟩
        · intro he
          simp [he] at hf
        · intro q hq he
          have hmem : s ∈ prev_ids ident previous := by
            rw [mem_prev_ids]
            refine ⟨q, hq, he, ?_⟩
            intro hse
            simp [hse] at hf
          have hcontra : (prev_ids ident previous).contains s = true :=
            List.elem_iff.mpr hmem
          rw [hf.2] at hcontra
          cases hcontra
    · rintro ⟨hc, s, hi, hs, habs⟩
      refine ⟨hc, ?_⟩
      have h1 : s.isEmpty = false := by
        cases hie : s.isEmpty
        · rfl
        · exact absurd (List.isEmpty_iff.mp hie) hs
      have hnm : s ∉ prev_ids ident previous := by
        rw [mem_prev_ids]
        rintro ⟨q, hq, he, _⟩
        exact habs q hq he
      have h2 : (prev_ids ident previous).contains s = false := by
        cases hb : (prev_ids ident previous).contains s
        · rfl
        · exact absurd (List.elem_iff.mp hb) hnm
      simp only [hi]
      rw [h1, h2]
      rfl
  · by_cases hp : p ∈ diffNew ident current previous
    · simp only [hp, if_true]
      unfold diffNew at hp ⊢
      have hf := (List.mem_filter.mp hp).2
      exact List.count_filter hf
    · simp only [hp, if_false]
      exact List.count_eq_zero.mpr hp
  · unfold diffNew
    rw [prev_ids_filter_truthy]

theorem diffNew_nil_prev {α : Type} (ident : α → Option Str) (cur : List α) :
    diffNew ident cur [] = cur.filter fun x => truthy (ident x) := by
  unfold diffNew
  refine List.filter_congr (fun x _ => ?_)
  cases hi : ident x with
  | none => simp [truthy, hi]
  | some s => simp [truthy, hi, prev_ids]

/-- Claim C7: loading state for an absent key returns the empty
sequence rather than an error, and on a first run against an empty
store every extracted record with a truthy identity appears in the new
items output of the plots section. -/
theorem c7_absent_state_bootstrap (ps : List Plot) (env : HandlerEnv) (s3 : S3State)
    (page : SummaryPage) (link : Str)
    (h1 : env.summaryFetch = .ok page)
    (h2 : extract_uit_alwar_link page = .ok link)
    (h3 : env.plotsAgg = .ok ps)
    (h4 : s3.plots = none) :
    load_json (none : Option (List Plot)) = [] ∧
    diffNew Plot.id ps (load_json (none : Option (List Plot))) =
      ps.filter (fun p => truthy p.id) ∧
    (plots_phase env s3).newCount = (ps.filter (fun p => truthy p.id)).length := by
  refine ⟨rfl, diffNew_nil_prev Plot.id ps, ?_⟩
  unfold plots_phase
  simp only [h1, h2, h3, h4]
  simp only [load_json, Option.getD_none, diffNew_nil_prev]
  by_cases he : (ps.filter fun p => truthy p.id).isEmpty
  · rw [List.isEmpty_iff.mp he]
    simp only [List.isEmpty_nil, if_true, List.length_nil]
    by_cases hr : env.raiseNoNewPlots
    · simp [hr, plotFailPath]
      by_cases hrf : env.raisePlotFail <;> simp [hrf]
    · simp [hr]
  · simp only [he, Bool.false_eq_true, if_false]

theorem c7_absent_state_bootstrap_witness :
    load_json (none : Option (List Plot)) = [] ∧
    diffNew Plot.id [{ id := some (str "P1") }]
        (load_json (none : Option (List Plot))) =
      List.filter (fun p : Plot => truthy p.id) [{ id := some (str "P1") }] ∧
    (plots_phase
        { summaryFetch := FetchResult.ok
            { hdrNext := some (some { rows :=
                [{ tds := [str "1", str "UIT, Alwar"], link := some (str "u"),
                   rowText := str "UIT, Alwar" }] }),
              allTables := [] },
          plotsAgg := FetchResult.ok [{ id := some (str "P1") }],
          newsFetch := FetchResult.ok [] }
        { plots := none, news := none }).newCount =
      (List.filter (fun p : Plot => truthy p.id) [{ id := some (str "P1") }]).length :=
  c7_absent_state_bootstrap
    [{ id := some (str "P1") }]
    { summaryFetch := FetchResult.ok
        { hdrNext := some (some { rows :=
            [{ tds := [str "1", str "UIT, Alwar"], link := some (str "u"),
               rowText := str "UIT, Alwar" }] }),
          allTables := [] },
      plotsAgg := FetchResult.ok [{ id := some (str "P1") }],
      newsFetch := FetchResult.ok [] }
    { plots := none, news := none }
    { hdrNext := some (some { rows :=
        [{ tds := [str "1", str "UIT, Alwar"], link := some (str "u"),
           rowText := str "UIT, Alwar" }] }),
      allTables := [] }
    (str "u") rfl (by decide) rfl rfl

theorem sendLoop_sent_le {α : Type} (cap : Nat) (ok : Nat → Bool) :
    ∀ (items : List α) (sent att : Nat), sent ≤ cap →
      (sendLoop cap ok items sent att).2 ≤ cap := by
  intro items
  induction items with
  | nil => intro sent att h; exact h
  | cons x rest ih =>
    intro sent att h
    unfold sendLoop
    by_cases hc : cap ≤ sent
    · simp only [hc, if_true]
      exact h
    · simp only [hc, if_false]
      cases ok att
      · exact ih sent (att + 1) h
      · exact ih (sent + 1) (att + 1) (by omega)

theorem sendLoop_all_ok {α : Type} (cap : Nat) :
    ∀ (items : List α) (sent att : Nat), sent ≤ cap →
      (sendLoop cap (fun _ => true) items sent att).1 =
        att + min (cap - sent) items.length := by
  intro items
  induction items with
  | nil => intro sent att _; simp [sendLoop]
  | cons x rest ih =>
    intro sent att h
    unfold sendLoop
    by_cases hc : cap ≤ sent
    · simp only [hc, if_true]
      have : cap - sent = 0 := by omega
      simp [this]
    · simp only [hc, if_false, if_true]
      rw [ih (sent + 1) (att + 1) (by omega)]
      simp only [List.length_cons]
      omega

/-- Claim C4 counterexample: with 60 new items, a cap of 50 and every
post attempt failing, the notifier makes 60 post attempts rather than
50, because the counter compared against the cap advances only on
successful sends; so the cap does not bound attempts regardless of
success or failure. -/
theorem c4_cap_counterexample :
    (send_telegram_messages true 50 (List.replicate 60 ()) (fun _ => false)).1 = 60 ∧
    (send_telegram_messages true 50 (List.replicate 60 ()) (fun _ => false)).1 ≠ 50 := by
  decide

/-- Claim C4 amended: the cap bounds successful sends, not attempts:
the success counter never exceeds the cap, and when every attempt
succeeds the number of attempts is the minimum of the cap and the item
count, the remaining items being skipped without error; failed attempts
do not count toward the cap. -/
theorem c4_cap_amended {α : Type} (cap : Nat) (items : List α) (ok : Nat → Bool) :
    (send_telegram_messages true cap items ok).2 ≤ cap ∧
    (send_telegram_messages true cap items (fun _ => true)).1 = min cap items.length := by
  constructor
  · unfold send_telegram_messages
    simp only [if_true]
    exact sendLoop_sent_le cap ok items 0 0 (Nat.zero_le cap)
  · unfold send_telegram_messages
    simp only [if_true]
    rw [sendLoop_all_ok cap items 0 0 (Nat.zero_le cap)]
    omega

theorem hexDigitChar_mem (n : Nat) : hexDigitChar n ∈ hexAlphabet := by
  unfold hexDigitChar
  rw [List.getD_eq_getD_get?]
  cases h : hexAlphabet.get? n with
  | none =>
    simp only [Option.getD_none]
    decide
  | some c =>
    simp only [Option.getD_some]
    exact List.get?_mem h

theorem length_hashBytes (st : Hash8) : (hashBytes st).length = 32 := rfl

theorem length_flatMap_hex (l : List Nat) :
    (l.flatMap byteHexChars).length = 2 * l.length := by
  induction l with
  | nil => rfl
  | cons x rest ih =>
    rw [List.flatMap_cons, List.length_append, ih, List.length_cons]
    simp [byteHexChars]
    omega

theorem length_sha256hexChars (m : List Nat) : (sha256hexChars m).length = 64 := by
  unfold sha256hexChars sha256
  rw [length_flatMap_hex, length_hashBytes]

theorem mem_sha256hexChars_hex (m : List Nat) :
    ∀ c ∈ sha256hexChars m, c ∈ hexAlphabet := by
  intro c hc
  unfold sha256hexChars at hc
  rw [List.mem_flatMap] at hc
  obtain ⟨b, _, hb⟩ := hc
  unfold byteHexChars at hb
  simp only [List.mem_cons, List.not_mem_nil, or_false] at hb
  rcases hb with rfl | rfl
  · exact hexDigitChar_mem (b / 16)
  · exact hexDigitChar_mem (b % 16)

/-- Claim C5: the newsletter identity equals the sha256 hexdigest of
the url truncated to 16 characters when the url is nonempty, else the
hexdigest of date, detail and venue joined by vertical bars, likewise
truncated; the identity always consists of exactly 16 characters of the
hexadecimal alphabet, and recomputation on the same field values yields
the same identity. -/
theorem c5_news_identity (url date detail venue : Str) :
    newsId url date detail venue =
      (sha256hexChars (utf8 (if url.isEmpty then
          date ++ str "|" ++ detail ++ str "|" ++ venue else url))).take 16 ∧
    (newsId url date detail venue).length = 16 ∧
    (newsId url date detail venue).all (fun c => hexAlphabet.contains c) = true ∧
    newsId url date detail venue = newsId url date detail venue := by
  refine ⟨rfl, ?_, ?_, rfl⟩
  · unfold newsId
    by_cases h : url.isEmpty <;>
      simp [h, List.length_take, length_sha256hexChars]
  · rw [List.all_eq_true]
    intro c hc
    have hmem : c ∈ sha256hexChars (utf8 (if url.isEmpty then
        date ++ str "|" ++ detail ++ str "|" ++ venue else url)) := by
      unfold newsId at hc
      by_cases h : url.isEmpty
      · simp only [h, if_true] at hc ⊢
        exact List.take_subset 16 _ hc
      · simp only [h, if_false] at hc ⊢
        exact List.take_subset 16 _ hc
    exact List.elem_iff.mpr (mem_sha256hexChars_hex _ c hmem)

/-- Claim C10: the claim states that plot listing extraction is total
and the index error branch unreachable; the code refutes it: an entry
that begins with the EMD Amount label (whose prefix carries no colon)
but contains no colon character reaches `text.split(":", 1)[1]` on a
one element list, which raises IndexError; the model returns the
corresponding error. -/
theorem c10_emd_amount_index_error :
    fetch_plot_details [{ text := str "EMD Amount 100", href := none }] =
      .error "list index out of range" := by
  decide

theorem setField_id (p : Plot) (k : PKey) (v : Str) : (setField p k v).id = p.id := by
  cases k <;> rfl

theorem setField_detail_url (p : Plot) (k : PKey) (v : Str) :
    (setField p k v).detail_url = p.detail_url := by
  cases k <;> rfl

theorem setField_nonempty (p : Plot) (k : PKey) (v : Str) :
    (setField p k v).nonempty = true := by
  cases k <;> simp [setField, Plot.nonempty]

theorem linkPlot_id (plot : Plot) (li : Li) : (linkPlot plot li).id = plot.id := by
  unfold linkPlot
  cases capture_link_from_li li with
  | none => rfl
  | some h => by_cases hd : plot.detail_url.isNone <;> simp [hd]

theorem linkPlot_nonempty (plot : Plot) (li : Li) (h : plot.nonempty = true) :
    (linkPlot plot li).nonempty = true := by
  unfold linkPlot
  cases capture_link_from_li li with
  | none => exact h
  | some v =>
    by_cases hd : plot.detail_url.isNone
    · simp [hd, Plot.nonempty]
    · simp [hd]
      exact h

theorem detailSome_nonempty (p : Plot) (h : p.detail_url.isSome = true) :
    p.nonempty = true := by
  simp [Plot.nonempty, h]

theorem stepLi_preserves_preId (res : List Plot) (plot : Plot) (li : Li)
    (res' : List Plot) (plot' : Plot)
    (hstep : stepLi res plot li = .ok (res', plot'))
    (hinv : (∃ q ∈ res, q.id = none ∧ q.nonempty = true) ∨
            (plot.id = none ∧ plot.nonempty = true)) :
    (∃ q ∈ res', q.id = none ∧ q.nonempty = true) ∨
    (plot'.id = none ∧ plot'.nonempty = true) := by
  unfold stepLi at hstep
  by_cases htext : li.text.isEmpty
  · simp only [htext, if_true, Except.ok.injEq, Prod.mk.injEq] at hstep
    obtain ⟨h1, h2⟩ := hstep
    subst h1; subst h2
    exact hinv
  · simp only [htext, Bool.false_eq_true, if_false] at hstep
    have hlinkInv : (∃ q ∈ res, q.id = none ∧ q.nonempty = true) ∨
        ((linkPlot plot li).id = none ∧ (linkPlot plot li).nonempty = true) := by
      rcases hinv with h | ⟨hid, hne⟩
      · exact Or.inl h
      · exact Or.inr ⟨(linkPlot_id plot li).trans hid, linkPlot_nonempty plot li hne⟩
    by_cases hpre : List.isPrefixOf (str "Id :") li.text = true
    · simp only [hpre, if_true] at hstep
      cases hct : colonTail li.text with
      | none => rw [hct] at hstep; cases hstep
      | some v =>
        rw [hct] at hstep
        simp only [Except.ok.injEq, Prod.mk.injEq] at hstep
        obtain ⟨h1, h2⟩ := hstep
        subst h1; subst h2
        rcases hlinkInv with ⟨q, hq, hP⟩ | ⟨hid, hne⟩
        · left
          by_cases hne1 : (linkPlot plot li).nonempty = true
          · exact ⟨q, by simp [hne1, List.mem_append, hq], hP⟩
          · simp only [Bool.not_eq_true] at hne1
            exact ⟨q, by simp [hne1, hq], hP⟩
        · left
          refine ⟨linkPlot plot li, ?_, hid, hne⟩
          simp [hne, List.mem_append]
    · simp only [hpre, Bool.false_eq_true, if_false] at hstep
      cases hfind : fieldPairs.find? (fun pk => List.isPrefixOf pk.1 li.text) with
      | some pk =>
        rw [hfind] at hstep
        cases hct : colonTail li.text with
        | none => rw [hct] at hstep; cases hstep
        | some v =>
          rw [hct] at hstep
          simp only [Except.ok.injEq, Prod.mk.injEq] at hstep
          obtain ⟨h1, h2⟩ := hstep
          subst h1; subst h2
          rcases hlinkInv with h | ⟨hid, hne⟩
          · exact Or.inl h
          · exact Or.inr ⟨(setField_id _ pk.2 v).trans hid, setField_nonempty _ pk.2 v⟩
      | none =>
        rw [hfind] at hstep
        by_cases hass : containsSubL li.text (str "Assessed Property Value") = true
        · simp only [hass, if_true] at hstep
          cases hct : colonTail li.text with
          | none =>
            rw [hct] at hstep
            simp only [Except.ok.injEq, Prod.mk.injEq] at hstep
            obtain ⟨h1, h2⟩ := hstep
            subst h1; subst h2
            exact hlinkInv
          | some v =>
            rw [hct] at hstep
            simp only [Except.ok.injEq, Prod.mk.injEq] at hstep
            obtain ⟨h1, h2⟩ := hstep
            subst h1; subst h2
            rcases hlinkInv with h | ⟨hid, hne⟩
            · exact Or.inl h
            · refine Or.inr ⟨hid, ?_⟩
              simp [Plot.nonempty]
        · simp only [hass, Bool.false_eq_true, if_false, Except.ok.injEq,
            Prod.mk.injEq] at hstep
          obtain ⟨h1, h2⟩ := hstep
          subst h1; subst h2
          exact hlinkInv

theorem goPlots_preId : ∀ (lis : List Li) (res : List Plot) (plot : Plot)
    (out : List Plot), goPlots lis res plot = .ok out →
    ((∃ q ∈ res, q.id = none ∧ q.nonempty = true) ∨
     (plot.id = none ∧ plot.nonempty = true)) →
    ∃ q ∈ out, q.id = none ∧ q.nonempty = true := by
  intro lis
  induction lis with
  | nil =>
    intro res plot out hgo hinv
    unfold goPlots at hgo
    simp only [Except.ok.injEq] at hgo
    subst hgo
    rcases hinv with ⟨q, hq, hP⟩ | ⟨hid, hne⟩
    · by_cases hne1 : plot.nonempty = true
      · exact ⟨q, by simp [hne1, List.mem_append, hq], hP⟩
      · simp only [Bool.not_eq_true] at hne1
        exact ⟨q, by simp [hne1, hq], hP⟩
    · exact ⟨plot, by simp [hne, List.mem_append], hid, hne⟩
  | cons li rest ih =>
    intro res plot out hgo hinv
    unfold goPlots at hgo
    cases hstep : stepLi res plot li with
    | error e => rw [hstep] at hgo; cases hgo
    | ok acc =>
      rw [hstep] at hgo
      obtain ⟨res', plot'⟩ := acc
      exact ih res' plot' out hgo
        (stepLi_preserves_preId res plot li res' plot' hstep hinv)

/-- Claim C3 counterexample: for the entry sequence of a Title line
followed by an Id line, the record whose first populated field is the
title rather than Id is emitted into the result as an id-less record
when the first Id label flushes it, rather than being silently dropped
and never emitted. -/
theorem c3_pre_id_counterexample :
    fetch_plot_details [{ text := str "Title : A", href := none },
                        { text := str "Id : 1", href := none }] =
      .ok [{ title := some (str "A") }, { id := some (str "1") }] := by
  decide

/-- Claim C3 amended: a record whose first populated field is something
other than Id is not dropped: whenever the first entry opens an id-less
record and extraction of the whole sequence succeeds, the result
contains an id-less nonempty record, flushed by the first Id label or
by the final flush. -/
theorem c3_pre_id_amended (li : Li) (rest : List Li) (p0 : Plot) (out : List Plot)
    (h0 : stepLi [] emptyPlot li = .ok ([], p0))
    (hid : p0.id = none)
    (hne : p0.nonempty = true)
    (hrun : fetch_plot_details (li :: rest) = .ok out) :
    ∃ q ∈ out, q.id = none ∧ q.nonempty = true := by
  unfold fetch_plot_details at hrun
  unfold goPlots at hrun
  rw [h0] at hrun
  exact goPlots_preId rest [] p0 out hrun (Or.inr ⟨hid, hne⟩)

theorem c3_pre_id_amended_witness :
    ∃ q ∈ [({ title := some (str "A") } : Plot), { id := some (str "1") }],
      q.id = none ∧ q.nonempty = true :=
  c3_pre_id_amended
    { text := str "Title : A", href := none }
    [{ text := str "Id : 1", href := none }]
    { title := some (str "A") }
    [{ title := some (str "A") }, { id := some (str "1") }]
    (by decide) rfl (by decide) (by decide)

theorem linkPlot_of_some (plot : Plot) (li : Li) (h : Str)
    (hd : plot.detail_url = some h) : linkPlot plot li = plot := by
  unfold linkPlot
  cases capture_link_from_li li with
  | none => rfl
  | some v => simp [hd]

theorem linkPlot_of_none_cap (plot : Plot) (li : Li) (h : Str)
    (hd : plot.detail_url = none) (hc : capture_link_from_li li = some h) :
    linkPlot plot li = { plot with detail_url := some h } := by
  unfold linkPlot
  rw [hc]
  simp [hd]

/-- Claim C9 counterexample: a link carried by the very entry whose Id
label opens a record is not captured as that record's detail_url: the
capture runs before the flush, so the link lands on the record open
before it (here the empty one, emitted as a link-only record), and the
newly opened record with id 1 has no detail_url. -/
theorem c9_link_on_id_counterexample :
    fetch_plot_details [{ text := str "Id : 1", href := some (str "h") }] =
      .ok [{ detail_url := some (str "h") }, { id := some (str "1") }] := by
  decide

/-- Claim C9 amended: a detail_url once captured is never overwritten:
it either stays on the open record or moves intact into the output when
the record is flushed; a link on an entry that contributes a field to
the open record is captured as that record's detail_url when it has
none; but a link on the Id entry that opens a record is captured into
the record open before the flush (emitted with it), and the newly
opened record starts with no detail_url. -/
theorem c9_detail_url_amended (res : List Plot) (plot : Plot) (li : Li)
    (res' : List Plot) (plot' : Plot) (h : Str)
    (hstep : stepLi res plot li = .ok (res', plot')) :
    (plot.detail_url = some h →
      (res' = res ∧ plot'.detail_url = some h) ∨
      (∃ q, res' = res ++ [q] ∧ q.detail_url = some h)) ∧
    (plot.detail_url = none → capture_link_from_li li = some h →
      li.text.isEmpty = false → List.isPrefixOf (str "Id :") li.text = false →
      plot'.detail_url = some h) ∧
    (plot.detail_url = none → capture_link_from_li li = some h →
      li.text.isEmpty = false → List.isPrefixOf (str "Id :") li.text = true →
      plot'.detail_url = none ∧ res' = res ++ [{ plot with detail_url := some h }]) := by
  unfold stepLi at hstep
  by_cases htext : li.text.isEmpty
  · simp only [htext, if_true, Except.ok.injEq, Prod.mk.injEq] at hstep
    obtain ⟨h1, h2⟩ := hstep
    subst h1; subst h2
    refine ⟨fun hdet => Or.inl ⟨rfl, hdet⟩, ?_, ?_⟩
    · intro _ _ hte _
      rw [htext] at hte
      cases hte
    · intro _ _ hte _
      rw [htext] at hte
      cases hte
  · simp only [htext, Bool.false_eq_true, if_false] at hstep
    by_cases hpre : List.isPrefixOf (str "Id :") li.text = true
    · simp only [hpre, if_true] at hstep
      cases hct : colonTail li.text with
      | none => rw [hct] at hstep; cases hstep
      | some v =>
        rw [hct] at hstep
        simp only [Except.ok.injEq, Prod.mk.injEq] at hstep
        obtain ⟨h1, h2⟩ := hstep
        subst h1; subst h2
        refine ⟨fun hdet => ?_, fun _ _ _ hp => ?_, fun hdn hcap _ _ => ?_⟩
        · right
          rw [linkPlot_of_some plot li h hdet]
          have hne : plot.nonempty = true := detailSome_nonempty plot (by simp [hdet])
          exact ⟨plot, by simp [hne], hdet⟩
        · rw [hp] at hpre
          cases hpre
        · rw [linkPlot_of_none_cap plot li h hdn hcap]
          have hne : Plot.nonempty { plot with detail_url := some h } = true := by
            simp [Plot.nonempty]
          exact ⟨rfl, by simp [hne]⟩
    · simp only [hpre, Bool.false_eq_true, if_false] at hstep
      cases hfind : fieldPairs.find? (fun pk => List.isPrefixOf pk.1 li.text) with
      | some pk =>
        rw [hfind] at hstep
        cases hct : colonTail li.text with
        | none => rw [hct] at hstep; cases hstep
        | some v =>
          rw [hct] at hstep
          simp only [Except.ok.injEq, Prod.mk.injEq] at hstep
          obtain ⟨h1, h2⟩ := hstep
          subst h1; subst h2
          refine ⟨fun hdet => ?_, fun hdn hcap _ _ => ?_, fun _ _ _ hp => ?_⟩
          · left
            rw [linkPlot_of_some plot li h hdet]
            exact ⟨rfl, (setField_detail_url plot pk.2 v).trans hdet⟩
          · rw [linkPlot_of_none_cap plot li h hdn hcap, setField_detail_url]
          · rw [hp] at hpre
            exact absurd rfl hpre
      | none =>
        rw [hfind] at hstep
        by_cases hass : containsSubL li.text (str "Assessed Property Value") = true
        · simp only [hass, if_true] at hstep
          cases hct : colonTail li.text with
          | none =>
            rw [hct] at hstep
            simp only [Except.ok.injEq, Prod.mk.injEq] at hstep
            obtain ⟨h1, h2⟩ := hstep
            subst h1; subst h2
            refine ⟨fun hdet => ?_, fun hdn hcap _ _ => ?_, fun _ _ _ hp => ?_⟩
            · left
              rw [linkPlot_of_some plot li h hdet]
              exact ⟨rfl, hdet⟩
            · rw [linkPlot_of_none_cap plot li h hdn hcap]
            · rw [hp] at hpre
              exact absurd rfl hpre
          | some v =>
            rw [hct] at hstep
            simp only [Except.ok.injEq, Prod.mk.injEq] at hstep
            obtain ⟨h1, h2⟩ := hstep
            subst h1; subst h2
            refine ⟨fun hdet => ?_, fun hdn hcap _ _ => ?_, fun _ _ _ hp => ?_⟩
            · left
              rw [linkPlot_of_some plot li h hdet]
              exact ⟨rfl, hdet⟩
            · rw [linkPlot_of_none_cap plot li h hdn hcap]
            · rw [hp] at hpre
              exact absurd rfl hpre
        · simp only [hass, Bool.false_eq_true, if_false, Except.ok.injEq,
            Prod.mk.injEq] at hstep
          obtain ⟨h1, h2⟩ := hstep
          subst h1; subst h2
          refine ⟨fun hdet => ?_, fun hdn hcap _ _ => ?_, fun _ _ _ hp => ?_⟩
          · left
            rw [linkPlot_of_some plot li h hdet]
            exact ⟨rfl, hdet⟩
          · rw [linkPlot_of_none_cap plot li h hdn hcap]
          · rw [hp] at hpre
            exact absurd rfl hpre

theorem c9_detail_url_amended_witness :
    (Plot.detail_url emptyPlot = some (str "h") →
      (([] : List Plot) = [] ∧
        Plot.detail_url { title := some (str "A"), detail_url := some (str "h") } =
          some (str "h")) ∨
      (∃ q : Plot, ([] : List Plot) = [] ++ [q] ∧
        q.detail_url = some (str "h"))) ∧
    (Plot.detail_url emptyPlot = none →
      capture_link_from_li { text := str "Title : A", href := some (str "h") } =
        some (str "h") →
      (str "Title : A").isEmpty = false →
      List.isPrefixOf (str "Id :") (str "Title : A") = false →
      Plot.detail_url { title := some (str "A"), detail_url := some (str "h") } =
        some (str "h")) ∧
    (Plot.detail_url emptyPlot = none →
      capture_link_from_li { text := str "Title : A", href := some (str "h") } =
        some (str "h") →
      (str "Title : A").isEmpty = false →
      List.isPrefixOf (str "Id :") (str "Title : A") = true →
      Plot.detail_url { title := some (str "A"), detail_url := some (str "h") } = none ∧
        ([] : List Plot) = [] ++ [{ emptyPlot with detail_url := some (str "h") }]) := by
  exact c9_detail_url_amended [] emptyPlot
    { text := str "Title : A", href := some (str "h") }
    [] { title := some (str "A"), detail_url := some (str "h") } (str "h") (by decide)

theorem plots_phase_escape_none (env : HandlerEnv) (s3 : S3State)
    (hpf : env.raisePlotFail = false) : (plots_phase env s3).escape = none := by
  unfold plots_phase plotFailPath
  cases hsf : env.summaryFetch with
  | netErr e => simp [hpf]
  | ok page =>
    cases hex : extract_uit_alwar_link page with
    | error e =>
      by_cases hs : env.raiseSoftNotice = true <;> simp [hex, hs, hpf]
    | ok l =>
      cases hag : env.plotsAgg with
      | netErr e => simp [hex, hag, hpf]
      | ok ps =>
        by_cases he : (diffNew Plot.id ps (load_json s3.plots)).isEmpty <;>
          by_cases hr : env.raiseNoNewPlots = true <;> simp [hex, hag, he, hr, hpf]

theorem news_phase_escape_none (env : HandlerEnv) (s3 : S3State)
    (hnf : env.raiseNewsFail = false) : (news_phase env s3).escape = none := by
  unfold news_phase newsFailPath
  cases hnfetch : env.newsFetch with
  | netErr e => simp [hnf]
  | ok tables =>
    by_cases he : (diffNew (fun n => some n.id) (fetch_newsletters tables)
        (load_json s3.news)).isEmpty <;>
      by_cases hr : env.raiseNoNewNews = true <;> simp [he, hr, hnf]

theorem news_phase_plots_unchanged (env : HandlerEnv) (s3 : S3State) :
    (news_phase env s3).s3.plots = s3.plots := by
  unfold news_phase newsFailPath
  cases hnfetch : env.newsFetch with
  | netErr e => by_cases hr : env.raiseNewsFail = true <;> simp [hr]
  | ok tables =>
    by_cases he : (diffNew (fun n => some n.id) (fetch_newsletters tables)
        (load_json s3.news)).isEmpty <;>
      by_cases hr : env.raiseNoNewNews = true <;>
        by_cases hf : env.raiseNewsFail = true <;> simp [he, hr, hf]

theorem news_phase_saves (env : HandlerEnv) (s3 : S3State) (tables : List NTable)
    (hnfetch : env.newsFetch = .ok tables) :
    (news_phase env s3).s3.news = some (fetch_newsletters tables) := by
  unfold news_phase newsFailPath
  rw [hnfetch]
  by_cases he : (diffNew (fun n => some n.id) (fetch_newsletters tables)
      (load_json s3.news)).isEmpty <;>
    by_cases hr : env.raiseNoNewNews = true <;>
      by_cases hf : env.raiseNewsFail = true <;> simp [he, hr, hf]

theorem plots_phase_saves (env : HandlerEnv) (s3 : S3State)
    (page : SummaryPage) (link : Str) (ps : List Plot)
    (h1 : env.summaryFetch = .ok page)
    (h2 : extract_uit_alwar_link page = .ok link)
    (h3 : env.plotsAgg = .ok ps) :
    (plots_phase env s3).s3.plots = some ps := by
  unfold plots_phase plotFailPath
  simp only [h1, h2, h3]
  by_cases he : (diffNew Plot.id ps (load_json s3.plots)).isEmpty <;>
    by_cases hr : env.raiseNoNewPlots = true <;>
      by_cases hf : env.raisePlotFail = true <;> simp [he, hr, hf]

/-- Claim C6: whenever extraction for a source succeeds, the full
current extracted set (including records lacking an id) is persisted to
the store before any notification is attempted, even when the diff is
empty and regardless of the outcome of the notification step (the raise
flags of the heartbeat and soft notice sites are unconstrained); the
persisted set equals everything extracted this run, for the plots
section and for the newsletters section alike. -/
theorem c6_persist_current_set (env : HandlerEnv) (s3 : S3State)
    (page : SummaryPage) (link : Str) (ps : List Plot) (tables : List NTable)
    (h1 : env.summaryFetch = .ok page)
    (h2 : extract_uit_alwar_link page = .ok link)
    (h3 : env.plotsAgg = .ok ps)
    (hbucket : env.bucketSet = true)
    (hpf : env.raisePlotFail = false)
    (hnfetch : env.newsFetch = .ok tables) :
    (plots_phase env s3).s3.plots = some ps ∧
    (lambda_handler env s3).s3.plots = some ps ∧
    (lambda_handler env s3).s3.news = some (fetch_newsletters tables) := by
  have hp := plots_phase_saves env s3 page link ps h1 h2 h3
  have hesc := plots_phase_escape_none env s3 hpf
  refine ⟨hp, ?_, ?_⟩
  · unfold lambda_handler
    simp only [hbucket, Bool.not_true, Bool.false_eq_true, if_false, hesc]
    cases hne : (news_phase env (plots_phase env s3).s3).escape
    · simp only [hne]
      rw [news_phase_plots_unchanged, hp]
    · simp only [hne]
      rw [news_phase_plots_unchanged, hp]
  · unfold lambda_handler
    simp only [hbucket, Bool.not_true, Bool.false_eq_true, if_false, hesc]
    cases hne : (news_phase env (plots_phase env s3).s3).escape
    · simp only [hne]
      exact news_phase_saves env _ tables hnfetch
    · simp only [hne]
      exact news_phase_saves env _ tables hnfetch

theorem c6_persist_current_set_witness :
    (plots_phase
        { summaryFetch := FetchResult.ok
            { hdrNext := some (some { rows :=
                [{ tds := [str "1", str "UIT, Alwar"], link := some (str "u"),
                   rowText := str "UIT, Alwar" }] }),
              allTables := [] },
          plotsAgg := FetchResult.ok [{ title := some (str "no id plot") }],
          newsFetch := FetchResult.ok [] }
        { plots := none, news := none }).s3.plots =
      some [{ title := some (str "no id plot") }] ∧
    (lambda_handler
        { summaryFetch := FetchResult.ok
            { hdrNext := some (some { rows :=
                [{ tds := [str "1", str "UIT, Alwar"], link := some (str "u"),
                   rowText := str "UIT, Alwar" }] }),
              allTables := [] },
          plotsAgg := FetchResult.ok [{ title := some (str "no id plot") }],
          newsFetch := FetchResult.ok [] }
        { plots := none, news := none }).s3.plots =
      some [{ title := some (str "no id plot") }] ∧
    (lambda_handler
        { summaryFetch := FetchResult.ok
            { hdrNext := some (some { rows :=
                [{ tds := [str "1", str "UIT, Alwar"], link := some (str "u"),
                   rowText := str "UIT, Alwar" }] }),
              allTables := [] },
          plotsAgg := FetchResult.ok [{ title := some (str "no id plot") }],
          newsFetch := FetchResult.ok [] }
        { plots := none, news := none }).s3.news = some [] :=
  c6_persist_current_set
    { summaryFetch := FetchResult.ok
        { hdrNext := some (some { rows :=
            [{ tds := [str "1", str "UIT, Alwar"], link := some (str "u"),
               rowText := str "UIT, Alwar" }] }),
          allTables := [] },
      plotsAgg := FetchResult.ok [{ title := some (str "no id plot") }],
      newsFetch := FetchResult.ok [] }
    { plots := none, news := none }
    { hdrNext := some (some { rows :=
        [{ tds := [str "1", str "UIT, Alwar"], link := some (str "u"),
           rowText := str "UIT, Alwar" }] }),
      allTables := [] }
    (str "u") [{ title := some (str "no id plot") }] []
    rfl (by decide) rfl rfl rfl rfl

/-- Claim C2 counterexample: with a summary page holding no table at
all and a newsletter page holding no matching table, newsletter
extraction returns the empty record set rather than failing hard, and
the missing summary table follows exactly the soft unit-not-found path
(a soft notice event, a 200 result, the run continuing), since both
conditions raise the same ValueError caught by the same handler; the
previous newsletter state is even overwritten with the empty set. -/
theorem c2_missing_container_counterexample :
    fetch_newsletters [] = [] ∧
    lambda_handler
      { summaryFetch := FetchResult.ok { hdrNext := none, allTables := [] },
        plotsAgg := FetchResult.ok [],
        newsFetch := FetchResult.ok [] }
      { plots := some [{ id := some (str "P1") }],
        news := some [{ id := str "n1", date := str "d", detail := str "t",
                        venue_time := str "v", url := str "u", title := str "w" }] } =
      { result := .ok { statusCode := 200, total_plots := 0, new_plots := 0,
                        total_news := 0, new_news := 0 },
        s3 := { plots := some [{ id := some (str "P1") }], news := some [] },
        events := [Event.softUnit "Could not find unit summary table",
                   Event.noNewNews] } := by
  constructor
  · rfl
  · decide

/-- Claim C2 amended: a missing top-level container is not a distinct
hard failure: a summary page with no table raises the same ValueError
kind as the soft unit-not-found condition and is handled by the same
soft path (a notice event, zero plot counts, plot state untouched, no
escape), and a missing newsletter table makes extraction return the
empty record set after a logged warning. -/
theorem c2_missing_container_amended (env : HandlerEnv) (s3 : S3State)
    (page : SummaryPage) (tables : List NTable)
    (h1 : env.summaryFetch = .ok page)
    (hhdr : page.hdrNext = none ∨ page.hdrNext = some none)
    (htab : page.allTables = [])
    (hraise : env.raiseSoftNotice = false)
    (hfind : tables.find? (fun tb =>
      tb.tid = some (str "ContentPlaceHolder1_gridview1")) = none) :
    extract_uit_alwar_link page = .error "Could not find unit summary table" ∧
    plots_phase env s3 =
      { escape := none, total := 0, newCount := 0, s3 := s3,
        events := [Event.softUnit "Could not find unit summary table"] } ∧
    fetch_newsletters tables = [] := by
  have hex : extract_uit_alwar_link page = .error "Could not find unit summary table" := by
    unfold extract_uit_alwar_link
    rcases hhdr with hh | hh <;> simp [hh, htab]
  refine ⟨hex, ?_, ?_⟩
  · unfold plots_phase
    simp only [h1, hex, hraise, Bool.false_eq_true, if_false]
  · unfold fetch_newsletters
    rw [hfind]

theorem c2_missing_container_amended_witness :
    extract_uit_alwar_link { hdrNext := none, allTables := [] } =
      .error "Could not find unit summary table" ∧
    plots_phase
      { summaryFetch := FetchResult.ok { hdrNext := none, allTables := [] },
        plotsAgg := FetchResult.ok [],
        newsFetch := FetchResult.ok [] }
      { plots := none, news := none } =
      { escape := none, total := 0, newCount := 0,
        s3 := { plots := none, news := none },
        events := [Event.softUnit "Could not find unit summary table"] } ∧
    fetch_newsletters [] = [] :=
  c2_missing_container_amended
    { summaryFetch := FetchResult.ok { hdrNext := none, allTables := [] },
      plotsAgg := FetchResult.ok [],
      newsFetch := FetchResult.ok [] }
    { plots := none, news := none }
    { hdrNext := none, allTables := [] }
    [] rfl (Or.inl rfl) rfl rfl rfl

/-- Claim C8 counterexample: when newsletter fetching fails and the
unguarded failure-notice send raises in the except block, the exception
escapes the run boundary instead of a structured result: the handler
result is the escaped error, refuting that the boundary never
propagates an exception even for failures while sending failure
notifications. -/
theorem c8_escape_counterexample :
    (lambda_handler
      { summaryFetch := FetchResult.netErr "summary request failed",
        plotsAgg := FetchResult.ok [],
        newsFetch := FetchResult.netErr "news request failed",
        raiseNewsFail := true }
      { plots := none, news := none }).result = .error "telegram send failed" := by
  decide

/-- Claim C8 amended: provided the unguarded single-message sender does
not raise at the two failure-notice sites (the batch sender catches per
item failures and the other notice sites are re-caught by those
except blocks), the run boundary always returns a structured result,
with status 200 carrying the per source counts whenever the bucket is
configured, for every combination of the remaining per source failures. -/
theorem c8_structured_result_amended (env : HandlerEnv) (s3 : S3State)
    (hpf : env.raisePlotFail = false) (hnf : env.raiseNewsFail = false) :
    ∃ r : RunResult, (lambda_handler env s3).result = .ok r ∧
      (env.bucketSet = true → r.statusCode = 200) := by
  unfold lambda_handler
  by_cases hb : env.bucketSet = true
  · simp only [hb, Bool.not_true, Bool.false_eq_true, if_false,
      plots_phase_escape_none env s3 hpf,
      news_phase_escape_none env _ hnf]
    exact ⟨_, rfl, fun _ => rfl⟩
  · rw [Bool.not_eq_true] at hb
    simp only [hb, Bool.not_false, if_true]
    exact ⟨{ statusCode := 500 }, rfl, fun h => absurd h Bool.false_ne_true⟩

theorem c8_structured_result_amended_witness :
    ∃ r : RunResult,
      (lambda_handler
        { summaryFetch := FetchResult.netErr "summary request failed",
          plotsAgg := FetchResult.ok [],
          newsFetch := FetchResult.ok [] }
        { plots := none, news := none }).result = .ok r ∧
      (HandlerEnv.bucketSet
        { summaryFetch := FetchResult.netErr "summary request failed",
          plotsAgg := FetchResult.ok [],
          newsFetch := FetchResult.ok [] } = true → r.statusCode = 200) :=
  c8_structured_result_amended
    { summaryFetch := FetchResult.netErr "summary request failed",
      plotsAgg := FetchResult.ok [],
      newsFetch := FetchResult.ok [] }
    { plots := none, news := none } rfl rfl
